import Mathlib

/-!
Verification of the per-frame attention/tracking logic of `src/camera_ui.py`,
a Tkinter camera preview with Haar-cascade face and nose detection.

The Python file is a merge of several variants of the same class: several
methods are defined more than once, and in a Python class body the last
definition of a name is the one the program uses.  The definitions below
embed the functions at the lines the theorems refer to:

* `pyMaxByArea` embeds the expression `max(cands, key=lambda c: c[2]*c[3])`
  used at lines 118, 191 and 277 (Python's `max` returns the first element
  attaining the maximal key and raises on an empty sequence, embedded as
  `none`).
* `_get_nose_center` embeds lines 107-122.
* `_is_user_attentive` embeds the effective (last) definition at
  lines 177-198.  In that body `line_y` is a free variable (the earlier
  variants take it as a parameter and the caller computes it at line 278);
  it is taken here as an explicit argument.
* `update_step` embeds the per-frame work of `update_preview`
  (lines 258-308) on a frame that was read successfully.

Detector capabilities (Haar cascades) are external collaborators: a
detector is embedded as the list of candidate rectangles it returned for
the region of the current frame, together with a flag that says whether the
cascade was loaded at all.
-/

/-- Axis-aligned detection rectangle `(x, y, w, h)` in pixel coordinates,
as produced by `detectMultiScale`. -/
structure Rect where
  x : Nat
  y : Nat
  w : Nat
  h : Nat
deriving DecidableEq, Repr

/-- Area `w * h`, the key of `max(cands, key=lambda c: c[2] * c[3])`. -/
def Rect.area (r : Rect) : Nat := r.w * r.h

/-- Embeds Python's `max(l, key=lambda c: c[2] * c[3])`: the first element
of `l` attaining the maximal area (`max` replaces its running best only on
a strictly larger key), `none` for the empty list where Python would raise
`ValueError`.  Used at lines 118, 191 and 277 of the source. -/
def pyMaxByArea (l : List Rect) : Option Rect :=
  match l with
  | [] => none
  | r :: rs => some (rs.foldl (fun best c => if best.area < c.area then c else best) r)

/-- Sub-image of the frame on which the nose cascade is run, from line 114
of the source: `face_roi = frame[y : y + h, x : x + w]`, i.e. the full face
rectangle. -/
def nose_search_region (face : Rect) : Rect :=
  ⟨face.x, face.y, face.w, face.h⟩

/-- Embeds `_get_nose_center` (lines 107-122): when the nose cascade is
loaded and returned at least one candidate inside the face region, the
largest-area candidate's center translated into frame coordinates
(line 119: `x + nx + nw // 2, y + ny + nh // 2`); otherwise the geometric
proxy `(x + w // 2, y + int(h * 0.58))` of line 122.  The source computes
`int(h * 0.58)` with a float product; it is embedded as `h * 58 / 100`
(truncating division), which agrees with the float computation at every
face height these theorems use. -/
def _get_nose_center (nose_cascade_loaded : Bool) (noses : List Rect) (face : Rect) :
    Nat × Nat :=
  match (if nose_cascade_loaded then pyMaxByArea noses else none) with
  | some n => (face.x + n.x + n.w / 2, face.y + n.y + n.h / 2)
  | none => (face.x + face.w / 2, face.y + face.h * 58 / 100)

/-- Embeds `_is_user_attentive`, the effective (last) definition at
lines 177-198: `False` when the nose cascade is not loaded (lines 184-185),
`False` when it returned no candidate (lines 187-189), and otherwise `True`
exactly when the largest candidate's translated center satisfies
`nose_center_y <= line_y` (line 198).  `line_y` is free in the source body
and is passed here explicitly. -/
def _is_user_attentive (nose_cascade_loaded : Bool) (noses : List Rect) (face : Rect)
    (line_y : Nat) : Bool :=
  if !nose_cascade_loaded then false
  else
    match pyMaxByArea noses with
    | none => false
    | some n => decide (face.y + n.y + n.h / 2 ≤ line_y)

/-- Embeds `line_y = int(frame.shape[0] * (p / 100.0))` (lines 278
and 295) as the exact floor `h * p / 100`.  The source's float product can
differ from this floor by one unit when the product rounds just below an
integer; no theorem below depends on that difference. -/
def line_y_of (frame_h : Nat) (percent : Nat) : Nat :=
  frame_h * percent / 100

/-- What one tick of `update_preview` leaves on screen for a successfully
read frame: the face box drawn at line 283, the text drawn next to it at
lines 282-293 (the string `"Facing screen"` or `"Look at screen"`), the y
coordinate of the attention line from line 295, and the preview widget's
text, which line 302 clears to the empty string. -/
structure FrameResult where
  face_box : Option Rect
  label : Option String
  line_y : Nat
  preview_text : String
deriving DecidableEq, Repr

/-- Mutable per-session state reachable from the frame loop: the
`self.last_face` field declared at lines 156-157 to remember the last face
box across detection dropouts. -/
structure UIState where
  last_face : Option Rect
deriving DecidableEq, Repr

/-- Embeds one tick of `update_preview` (lines 258-308) on a successfully
read frame: the face detector has produced `faces` (lines 266-274); when at
least one candidate is present the largest-area one is boxed and labelled
by the verdict (lines 276-293), and the attention line y is computed at
line 295.  Lines 279-280 assign `attentive` twice (the duplicated second
call omits `line_y`); the verdict embedded is the nose-against-line test of
`_is_user_attentive` with the `line_y` of line 278.  Nothing in the body
reads or writes `self.last_face`. -/
def update_step (st : UIState) (frame_h : Nat) (percent : Nat) (faces : List Rect)
    (nose_cascade_loaded : Bool) (noses : List Rect) : UIState × FrameResult :=
  let ly := line_y_of frame_h percent
  match pyMaxByArea faces with
  | some f =>
      let attentive := _is_user_attentive nose_cascade_loaded noses f ly
      (st, ⟨some f, some (if attentive then "Facing screen" else "Look at screen"), ly, ""⟩)
  | none => (st, ⟨none, none, ly, ""⟩)

/-- Modelled from the spec: the Band Policy clamp
`max(0, min(position, frameHeight - 1))` of spec section 4.2.  No clamp
operation exists under `src/` (line 295 uses the computed `line_y`
directly); the operation belongs to the browser/server variant of the
application, which is not among the source files. -/
def clamp (position : Int) (frame_h : Int) : Int :=
  max 0 (min position (frame_h - 1))

/-- Outside test exactly as the spec sentence words it (section 4.2, line
variant): the point is a band violation when `point.y <= band.position`. -/
def spec_band_violation (nose_y line_y : Nat) : Bool :=
  decide (nose_y ≤ line_y)

/-- Verdict formula exactly as the spec sentence words it (section 4.3
step 4): `attentive = NOT (bandViolation OR turnedAway)`. -/
def spec_attentive (band_violation turned_away : Bool) : Bool :=
  !(band_violation || turned_away)

/-- Running best of the fold inside `pyMaxByArea`: it is the start value or
a member of the list, its area dominates the start value's, and it
dominates the area of every list element. -/
theorem foldl_area_best (rs : List Rect) : ∀ r : Rect,
    (rs.foldl (fun best c => if best.area < c.area then c else best) r = r
      ∨ rs.foldl (fun best c => if best.area < c.area then c else best) r ∈ rs)
    ∧ r.area ≤ (rs.foldl (fun best c => if best.area < c.area then c else best) r).area
    ∧ ∀ s ∈ rs, s.area ≤ (rs.foldl (fun best c => if best.area < c.area then c else best) r).area := by
  induction rs with
  | nil => intro r; simp
  | cons c cs ih =>
    intro r
    simp only [List.foldl_cons, List.mem_cons]
    rcases ih (if r.area < c.area then c else r) with ⟨hmem, hge, hall⟩
    by_cases h : r.area < c.area
    · rw [if_pos h] at hmem hge hall ⊢
      refine ⟨?_, ?_, ?_⟩
      · rcases hmem with hmem | hmem
        · exact Or.inr (Or.inl hmem)
        · exact Or.inr (Or.inr hmem)
      · exact le_trans (le_of_lt h) hge
      · intro s hs
        rcases hs with hs | hs
        · subst hs; exact hge
        · exact hall s hs
    · rw [if_neg h] at hmem hge hall ⊢
      refine ⟨?_, ?_, ?_⟩
      · rcases hmem with hmem | hmem
        · exact Or.inl hmem
        · exact Or.inr (Or.inr hmem)
      · exact hge
      · intro s hs
        rcases hs with hs | hs
        · subst hs; exact le_trans (le_of_not_lt h) hge
        · exact hall s hs

/-- C1: counterexample.  The claim reads the spec's outside test, a band
violation when `point.y <= band.position`, into the code's verdict.  At the
face `(100, 100, 80, 80)` with one nose candidate `(30, 30, 20, 20)` the
translated nose center y is 140; with the line at 150 the code declares the
user attentive (line 198 returns `nose_center_y <= line_y` as the verdict),
while the claim's formula `NOT (bandViolation OR turnedAway)` with
`bandViolation = (140 <= 150)` and `turnedAway = false` demands
non-attentive. -/
theorem C1_counterexample :
    _is_user_attentive true [⟨30, 30, 20, 20⟩] ⟨100, 100, 80, 80⟩ 150 = true
    ∧ (100 : Nat) + 30 + 20 / 2 = 140
    ∧ spec_attentive (spec_band_violation 140 150) false = false := by
  decide

/-- C1 (amended): a band violation is `point.y > band.position` — strictly
below the line; a point at or above the line is attentive — and with that
orientation the verdict is `NOT (bandViolation OR turnedAway)` where
`turnedAway` holds when the nose cascade is not loaded; with no nose
candidate at all the verdict is always `false`. -/
theorem C1_attentive_formula (nose_cascade_loaded : Bool) (noses : List Rect)
    (face : Rect) (line_y : Nat) :
    (∀ n, pyMaxByArea noses = some n →
      _is_user_attentive nose_cascade_loaded noses face line_y
        = spec_attentive (decide (face.y + n.y + n.h / 2 > line_y)) (!nose_cascade_loaded))
    ∧ _is_user_attentive nose_cascade_loaded [] face line_y = false := by
  constructor
  · intro n hn
    cases nose_cascade_loaded with
    | false => simp [_is_user_attentive, spec_attentive]
    | true =>
        by_cases h : face.y + n.y + n.h / 2 ≤ line_y
        · simp [_is_user_attentive, spec_attentive, hn, h, gt_iff_lt, Nat.not_lt.mpr h]
        · simp [_is_user_attentive, spec_attentive, hn, h, gt_iff_lt, Nat.lt_of_not_le h]
  · cases nose_cascade_loaded <;> simp [_is_user_attentive, pyMaxByArea]

/-- C2: counterexample.  For the face `(100, 100, 80, 80)` with no nose
landmark found, the proxy of line 122 is
`(100 + 80 // 2, 100 + int(80 * 0.58)) = (140, 146)` — not `(140, 147)` as
the claim states — and with the band line at 150 the verdict is `false`
(lines 188-189 return `False` on an empty candidate list), not `true`. -/
theorem C2_counterexample :
    _get_nose_center true [] ⟨100, 100, 80, 80⟩ = (140, 146)
    ∧ _is_user_attentive true [] ⟨100, 100, 80, 80⟩ 150 = false := by
  decide

/-- C2 (amended): for the face `(100, 100, 80, 80)` with no nose landmark
found, the estimated proxy point is `(140, 146)` (whether the cascade found
nothing or is not loaded at all); the verdict is `false` for the band line
at 150 and at 120 alike, since a frame without a nose candidate is never
attentive; and the on-screen text for such a frame is `"Look at screen"`
(the code has no status containing "alert"). -/
theorem C2_scenario :
    _get_nose_center true [] ⟨100, 100, 80, 80⟩ = (140, 146)
    ∧ _get_nose_center false [] ⟨100, 100, 80, 80⟩ = (140, 146)
    ∧ _is_user_attentive true [] ⟨100, 100, 80, 80⟩ 150 = false
    ∧ _is_user_attentive true [] ⟨100, 100, 80, 80⟩ 120 = false
    ∧ (update_step ⟨none⟩ 300 50 [⟨100, 100, 80, 80⟩] true []).2.label
        = some "Look at screen" := by
  refine ⟨rfl, rfl, rfl, rfl, rfl⟩

/-- C3: counterexample.  With the nose cascade not loaded, the verdict for
the face `(100, 100, 80, 80)` is `false` even with the band line at 500,
far below the proxy point `(140, 146)` that `_get_nose_center` would
supply: lines 184-185 return `False` as soon as the capability is absent,
so the absence of the capability alone does make the verdict
non-attentive, and no fallback to the proxy happens in the decision path. -/
theorem C3_counterexample :
    _is_user_attentive false [] ⟨100, 100, 80, 80⟩ 500 = false
    ∧ _get_nose_center false [] ⟨100, 100, 80, 80⟩ = (140, 146) := by
  decide

/-- C3 (amended): the verdict is non-attentive whenever the nose cascade is
not loaded, and also whenever it returned no candidate; the geometric-proxy
fallback exists only inside `_get_nose_center`, which the attentiveness
decision of lines 177-198 never consults, so an absent capability alone
always forces a non-attentive verdict. -/
theorem C3_turned_away (noses : List Rect) (face : Rect) (line_y : Nat)
    (nose_cascade_loaded : Bool) :
    _is_user_attentive false noses face line_y = false
    ∧ _is_user_attentive nose_cascade_loaded [] face line_y = false
    ∧ _get_nose_center false noses face
        = (face.x + face.w / 2, face.y + face.h * 58 / 100) := by
  refine ⟨rfl, ?_, rfl⟩
  cases nose_cascade_loaded <;> rfl

/-- C4: counterexample.  Frame 1 detects the face `(50, 50, 60, 60)`, yet
the sticky memory still holds nothing afterwards (nothing in
`update_preview` writes `self.last_face`), and the following no-detection
frame emits no face box at all instead of re-emitting `(50, 50, 60, 60)`. -/
theorem C4_counterexample :
    (update_step ⟨none⟩ 480 55 [⟨50, 50, 60, 60⟩] true [⟨10, 10, 20, 20⟩]).1.last_face
      = none
    ∧ (update_step
        (update_step ⟨none⟩ 480 55 [⟨50, 50, 60, 60⟩] true [⟨10, 10, 20, 20⟩]).1
        480 55 [] true []).2.face_box = none := by
  refine ⟨rfl, rfl⟩

/-- C4 (amended): the `last_face` field is declared but never written nor
read by the frame loop — every tick leaves the session state unchanged,
whatever was detected — and a no-detection tick emits no face box, so no
stored rectangle is ever re-emitted. -/
theorem C4_last_face_unused (st : UIState) (frame_h percent : Nat) (faces : List Rect)
    (nose_cascade_loaded : Bool) (noses : List Rect) :
    (update_step st frame_h percent faces nose_cascade_loaded noses).1 = st
    ∧ (update_step st frame_h percent [] nose_cascade_loaded noses).2.face_box = none := by
  constructor
  · unfold update_step
    cases pyMaxByArea faces <;> rfl
  · rfl

/-- C5: for every non-empty candidate list, the selected candidate is a
member of the list whose area `w * h` dominates every candidate's area; the
selection is deterministic since `pyMaxByArea` is a function of the list
(Python's `max` keeps the first maximal element, so ties resolve the same
way on every call). -/
theorem C5_largest_area_selected (l : List Rect) (hl : l ≠ []) :
    ∃ r, pyMaxByArea l = some r ∧ r ∈ l ∧ ∀ s ∈ l, s.area ≤ r.area := by
  cases l with
  | nil => exact absurd rfl hl
  | cons a rs =>
      rcases foldl_area_best rs a with ⟨hmem, hge, hall⟩
      refine ⟨rs.foldl (fun best c => if best.area < c.area then c else best) a, ?_, ?_, ?_⟩
      · rfl
      · rcases hmem with hmem | hmem
        · rw [hmem]; exact List.mem_cons_self a rs
        · exact List.mem_cons_of_mem a hmem
      · intro s hs
        rcases List.mem_cons.mp hs with hs | hs
        · subst hs; exact hge
        · exact hall s hs

/-- C5 witness: a concrete three-candidate list with a tie on area 4; the
first maximal candidate is chosen. -/
theorem C5_witness :
    ∃ r, pyMaxByArea [⟨0, 0, 2, 2⟩, ⟨1, 1, 2, 2⟩, ⟨0, 0, 3, 1⟩] = some r
      ∧ r ∈ [⟨0, 0, 2, 2⟩, ⟨1, 1, 2, 2⟩, ⟨0, 0, 3, 1⟩]
      ∧ ∀ s ∈ [Rect.mk 0 0 2 2, ⟨1, 1, 2, 2⟩, ⟨0, 0, 3, 1⟩], s.area ≤ r.area :=
  C5_largest_area_selected [⟨0, 0, 2, 2⟩, ⟨1, 1, 2, 2⟩, ⟨0, 0, 3, 1⟩] (by decide)

/-- C6: the Band Policy clamp (modelled from the spec; no clamp exists in
`src/`) equals `max(0, min(position, frameHeight - 1))` and is idempotent
for every position and every positive frame height. -/
theorem C6_clamp_idempotent (p frame_h : Int) (hh : 0 < frame_h) :
    clamp p frame_h = max 0 (min p (frame_h - 1))
    ∧ clamp (clamp p frame_h) frame_h = clamp p frame_h := by
  refine ⟨rfl, ?_⟩
  unfold clamp
  omega

/-- C6 witness: the clamp at position 500 with frame height 100. -/
theorem C6_witness :
    clamp 500 100 = max 0 (min 500 (100 - 1))
    ∧ clamp (clamp 500 100) 100 = clamp 500 100 :=
  C6_clamp_idempotent 500 100 (by decide)

/-- C7: counterexample.  On a first frame whose face detection returns zero
candidates (sticky memory still empty), the tick emits no face box, draws
no label, and clears the preview text to the empty string: no status
containing "face not found" exists anywhere in this code path. -/
theorem C7_counterexample :
    (update_step ⟨none⟩ 480 55 [] true []).2.label = none
    ∧ (update_step ⟨none⟩ 480 55 [] true []).2.preview_text = ""
    ∧ (update_step ⟨none⟩ 480 55 [] true []).2.face_box = none := by
  refine ⟨rfl, rfl, rfl⟩

/-- C7 (amended): a frame with zero face candidates is handled without any
error by the frame tick — a total step — producing no face box and no
status text at all (label absent, preview text empty, only the attention
line drawn), on every session state including the empty sticky memory of a
first frame; there is no "face not found" status in the code. -/
theorem C7_no_face_frame (st : UIState) (frame_h percent : Nat)
    (nose_cascade_loaded : Bool) (noses : List Rect) :
    update_step st frame_h percent [] nose_cascade_loaded noses
      = (st, ⟨none, none, line_y_of frame_h percent, ""⟩) := by
  rfl

/-- C8: counterexample.  On an attentive Tracking frame the text drawn is
`"Facing screen"`, not `"Tracking good"` as the claim states (and the
non-attentive text is `"Look at screen"`, not the claimed alert string). -/
theorem C8_counterexample :
    (update_step ⟨none⟩ 480 55 [⟨100, 100, 80, 80⟩] true [⟨30, 30, 20, 20⟩]).2.label
      = some "Facing screen"
    ∧ "Facing screen" ≠ "Tracking good" := by
  refine ⟨rfl, by decide⟩

/-- C8 (amended): on every frame with a detected face the emitted text is
exactly `"Facing screen"` when the verdict is attentive and exactly
`"Look at screen"` otherwise. -/
theorem C8_label_text (st : UIState) (frame_h percent : Nat) (faces : List Rect)
    (nose_cascade_loaded : Bool) (noses : List Rect) (f : Rect)
    (hf : pyMaxByArea faces = some f) :
    (update_step st frame_h percent faces nose_cascade_loaded noses).2.label
      = some (if _is_user_attentive nose_cascade_loaded noses f (line_y_of frame_h percent)
              then "Facing screen" else "Look at screen") := by
  unfold update_step
  rw [hf]

/-- C8 witness: the single-face frame `(100, 100, 80, 80)` with an unloaded
nose cascade at slider value 55 on a 480-pixel-high frame. -/
theorem C8_witness :
    (update_step ⟨none⟩ 480 55 [⟨100, 100, 80, 80⟩] false []).2.label
      = some (if _is_user_attentive false [] ⟨100, 100, 80, 80⟩ (line_y_of 480 55)
              then "Facing screen" else "Look at screen") :=
  C8_label_text ⟨none⟩ 480 55 [⟨100, 100, 80, 80⟩] false [] ⟨100, 100, 80, 80⟩ rfl

/-- C9: counterexample.  For the face `(100, 100, 80, 80)` the nose cascade
is run on the full face rectangle — line 114 slices
`frame[y : y + h, x : x + w]` — not on the lower three quarters
`(100, 120, 80, 60)` that the claim describes. -/
theorem C9_counterexample :
    nose_search_region ⟨100, 100, 80, 80⟩ = ⟨100, 100, 80, 80⟩
    ∧ nose_search_region ⟨100, 100, 80, 80⟩ ≠ ⟨100, 120, 80, 60⟩ := by
  decide

/-- C9 (amended): the nose detector is run on the full face rectangle (rows
`y` to `y + h`, columns `x` to `x + w`), and a found candidate's center is
translated back to frame coordinates by adding the face origin `(x, y)` —
consistent with a search region starting at `y`, not at `y + h/4`. -/
theorem C9_full_face_region (face : Rect) :
    nose_search_region face = face
    ∧ ∀ noses : List Rect, ∀ n : Rect, pyMaxByArea noses = some n →
        _get_nose_center true noses face
          = (face.x + n.x + n.w / 2, face.y + n.y + n.h / 2) := by
  constructor
  · rfl
  · intro noses n hn
    unfold _get_nose_center
    rw [if_pos rfl, hn]
